import Mathlib

/-!
Verification of the GradientHair meeting-moderation frontend.

This file shallowly embeds the parts of the repository that the
specification's claims are about:

* `src/frontend/store/meeting-store.ts` — the zustand meeting store
  (state record, every action as a pure state transformer);
* the speaker-statistics fold of the meeting-room page;
* the WebSocket message handler of `src/frontend/hooks/use-websocket.ts`
  (message dispatch, reconnect scheduling, disconnect);
* the `DemoSimulator` class (timer scheduling, start/stop,
  persona-fallback script generation);
* the spec-level `InterventionArbiter` and `StructuredOutputRunner`,
  whose implementations are not part of the frontend sources and are
  therefore modelled from the specification text.

Machine integers do not occur; every counter in the sources is a small
JavaScript number used as a mathematical integer, embedded as `Nat`.
Wall-clock timestamps (`new Date().toISOString()`) are opaque strings the
claims never inspect; the embedding abstracts them as `""`.
-/

namespace GradientHair

/-! ## Meeting store (`src/frontend/store/meeting-store.ts`) -/

/-- Source `status: "preparing" | "in_progress" | "completed"` from the store. -/
inductive Status
  | preparing
  | in_progress
  | completed
  deriving DecidableEq, Repr

/-- Source `interface Participant` from the store. -/
structure Participant where
  id : String
  name : String
  role : String
  deriving DecidableEq, Repr

/-- Source `interface TranscriptEntry` from the store (`latencyMs?: number`). -/
structure TranscriptEntry where
  id : String
  timestamp : String
  speaker : String
  text : String
  latencyMs : Option Nat
  deriving DecidableEq, Repr

/-- Source `interface TranscriptStream` from the store. -/
structure TranscriptStream where
  timestamp : String
  speaker : String
  text : String
  deriving DecidableEq, Repr

/-- Source `interface Intervention` from the store.  The TypeScript annotation
restricts `type` to four string literals, but the annotation is erased at
runtime and the demo path delivers a fifth value (`"FACILITATOR_CHECK"`),
so the runtime-faithful embedding uses `String`.  Likewise
`suggestedSpeaker` is absent from the store's interface but present on the
runtime objects the demo simulator delivers. -/
structure Intervention where
  id : String
  type : String
  message : String
  timestamp : String
  violatedPrinciple : Option String
  parkingLotItem : Option String
  suggestedSpeaker : Option String
  deriving DecidableEq, Repr

/-- One value of the `SpeakerStats` record from the store. -/
structure SpeakerStat where
  percentage : Nat
  speakingTime : Nat
  count : Nat
  deriving DecidableEq, Repr

/-- Source `SpeakerStats` — a JS object keyed by speaker name, embedded as an
insertion-ordered association list. -/
abbrev SpeakerStats : Type := List (String × SpeakerStat)

/-- The state portion of `MeetingState` from the store. -/
structure MeetingState where
  meetingId : Option String
  title : String
  status : Status
  agenda : String
  participants : List Participant
  selectedPrinciples : List String
  transcript : List TranscriptEntry
  transcriptStream : Option TranscriptStream
  interventions : List Intervention
  speakerStats : SpeakerStats
  currentIntervention : Option Intervention
  deriving DecidableEq, Repr

/-- The initial state passed to `create<MeetingState>`. -/
def initialState : MeetingState where
  meetingId := none
  title := ""
  status := .preparing
  agenda := ""
  participants := []
  selectedPrinciples := ["agile"]
  transcript := []
  transcriptStream := none
  interventions := []
  speakerStats := []
  currentIntervention := none

/-- Action `setTitle: (title) => set({ title })`. -/
def setTitle (t : String) (s : MeetingState) : MeetingState :=
  { s with title := t }

/-- Action `setAgenda: (agenda) => set({ agenda })`. -/
def setAgenda (a : String) (s : MeetingState) : MeetingState :=
  { s with agenda := a }

/-- Action `setParticipants: (participants) => set({ participants })`. -/
def setParticipants (ps : List Participant) (s : MeetingState) : MeetingState :=
  { s with participants := ps }

/-- Action `addParticipant: (participant) => set((state) => ({ participants: [...state.participants, participant] }))`. -/
def addParticipant (p : Participant) (s : MeetingState) : MeetingState :=
  { s with participants := s.participants ++ [p] }

/-- Action `removeParticipant: (id) => set((state) => ({ participants: state.participants.filter((p) => p.id !== id) }))`. -/
def removeParticipant (i : String) (s : MeetingState) : MeetingState :=
  { s with participants := s.participants.filter (fun p => p.id ≠ i) }

/-- Action `setSelectedPrinciples: (principles) => set({ selectedPrinciples: principles })`. -/
def setSelectedPrinciples (ps : List String) (s : MeetingState) : MeetingState :=
  { s with selectedPrinciples := ps }

/-- Action `startMeeting: (meetingId) => set({ meetingId, status: "in_progress" })`. -/
def startMeeting (mid : String) (s : MeetingState) : MeetingState :=
  { s with meetingId := some mid, status := .in_progress }

/-- Action `addTranscript: (entry) => set((state) => ({ transcript: [...state.transcript, entry] }))`. -/
def addTranscript (e : TranscriptEntry) (s : MeetingState) : MeetingState :=
  { s with transcript := s.transcript ++ [e] }

/-- Action `updateTranscriptStream`: merges a chunk into the streaming buffer when
timestamp and speaker match, otherwise replaces the buffer. -/
def updateTranscriptStream (c : TranscriptStream) (s : MeetingState) : MeetingState :=
  match s.transcriptStream with
  | some cur =>
      if cur.timestamp = c.timestamp ∧ cur.speaker = c.speaker then
        { s with transcriptStream := some { cur with text := cur.text ++ c.text } }
      else
        { s with transcriptStream := some c }
  | none => { s with transcriptStream := some c }

/-- Action `addIntervention: (intervention) => set((state) => ({ interventions: [...state.interventions, intervention], currentIntervention: intervention }))`. -/
def addIntervention (i : Intervention) (s : MeetingState) : MeetingState :=
  { s with interventions := s.interventions ++ [i], currentIntervention := some i }

/-- Action `dismissIntervention: () => set({ currentIntervention: null })`. -/
def dismissIntervention (s : MeetingState) : MeetingState :=
  { s with currentIntervention := none }

/-- Action `updateSpeakerStats: (stats) => set({ speakerStats: stats })`. -/
def updateSpeakerStats (st : SpeakerStats) (s : MeetingState) : MeetingState :=
  { s with speakerStats := st }

/-- Action `endMeeting: () => set({ status: "completed" })`. -/
def endMeeting (s : MeetingState) : MeetingState :=
  { s with status := .completed }

/-- Action `reset: () => set({ ... })` — restores every field to its initial value. -/
def reset (_s : MeetingState) : MeetingState :=
  { meetingId := none
    title := ""
    status := .preparing
    agenda := ""
    participants := []
    selectedPrinciples := ["agile"]
    transcript := []
    transcriptStream := none
    interventions := []
    speakerStats := []
    currentIntervention := none }

/-- The store's action interface, one constructor per action. -/
inductive Action
  | setTitle (t : String)
  | setAgenda (a : String)
  | setParticipants (ps : List Participant)
  | addParticipant (p : Participant)
  | removeParticipant (i : String)
  | setSelectedPrinciples (ps : List String)
  | startMeeting (mid : String)
  | addTranscript (e : TranscriptEntry)
  | updateTranscriptStream (c : TranscriptStream)
  | addIntervention (i : Intervention)
  | dismissIntervention
  | updateSpeakerStats (st : SpeakerStats)
  | endMeeting
  | reset
  deriving DecidableEq

/-- Dispatching one store action. -/
def Action.apply : Action → MeetingState → MeetingState
  | .setTitle t, s => GradientHair.setTitle t s
  | .setAgenda a, s => GradientHair.setAgenda a s
  | .setParticipants ps, s => GradientHair.setParticipants ps s
  | .addParticipant p, s => GradientHair.addParticipant p s
  | .removeParticipant i, s => GradientHair.removeParticipant i s
  | .setSelectedPrinciples ps, s => GradientHair.setSelectedPrinciples ps s
  | .startMeeting mid, s => GradientHair.startMeeting mid s
  | .addTranscript e, s => GradientHair.addTranscript e s
  | .updateTranscriptStream c, s => GradientHair.updateTranscriptStream c s
  | .addIntervention i, s => GradientHair.addIntervention i s
  | .dismissIntervention, s => GradientHair.dismissIntervention s
  | .updateSpeakerStats st, s => GradientHair.updateSpeakerStats st s
  | .endMeeting, s => GradientHair.endMeeting s
  | .reset, s => GradientHair.reset s

/-- Dispatching a sequence of store actions, left to right. -/
def applyAll (acts : List Action) (s : MeetingState) : MeetingState :=
  acts.foldl (fun st a => a.apply st) s

/-- The transcript entry an action appends, if it is an `addTranscript`. -/
def Action.entryOf : Action → Option TranscriptEntry
  | .addTranscript e => some e
  | _ => none

/-- The intervention an action records, if it is an `addIntervention`. -/
def Action.interventionOf : Action → Option Intervention
  | .addIntervention i => some i
  | _ => none

/-! ## Speaker statistics fold (meeting-room page)

The page recomputes speaker statistics from the whole transcript on every
change:

```js
const speakerCounts = {};
transcript.forEach((t) => {
  speakerCounts[t.speaker] = (speakerCounts[t.speaker] || 0) + 1;
});
const total = Object.values(speakerCounts).reduce((a, b) => a + b, 0);
if (total > 0) {
  const stats = {};
  participants.forEach((p) => {
    const count = speakerCounts[p.name] || 0;
    stats[p.name] = { percentage: Math.round((count / total) * 100),
                      speakingTime: count * 5, count };
  });
  updateSpeakerStats(stats);
}
```

A JS object with insertion-ordered keys is embedded as an association
list. -/

/-- Update `speakerCounts[sp] = (speakerCounts[sp] || 0) + 1` on an
insertion-ordered association list. -/
def bump : List (String × Nat) → String → List (String × Nat)
  | [], sp => [(sp, 1)]
  | (k, v) :: rest, sp =>
      if k = sp then (k, v + 1) :: rest else (k, v) :: bump rest sp

/-- The loop body of the `forEach` above, applied to one transcript entry. -/
def foldOne (counts : List (String × Nat)) (e : TranscriptEntry) :
    List (String × Nat) :=
  bump counts e.speaker

/-- The whole-log fold: the `forEach` loop run over the entire transcript. -/
def speakerCounts (transcript : List TranscriptEntry) : List (String × Nat) :=
  transcript.foldl foldOne []

/-- The incremental view of the same computation: apply `foldOne` once for
each entry, in arrival order, starting from the empty statistics.  Written
by recursion on the most recent entry so that it is literally "update the
previous statistics with the new entry". -/
def speakerCountsIterAux : List TranscriptEntry → List (String × Nat)
  | [] => []
  | e :: earlier => foldOne (speakerCountsIterAux earlier) e

/-- Iterated `foldOne` over the log in arrival order. -/
def speakerCountsIter (transcript : List TranscriptEntry) : List (String × Nat) :=
  speakerCountsIterAux transcript.reverse

/-- Lookup `speakerCounts[name] || 0`. -/
def countOf : List (String × Nat) → String → Nat
  | [], _ => 0
  | (k, v) :: rest, name => if k = name then v else countOf rest name

/-- Total `Object.values(speakerCounts).reduce((a, b) => a + b, 0)`. -/
def totalOf (counts : List (String × Nat)) : Nat :=
  (counts.map Prod.snd).sum

/-- Percentage `Math.round((count / total) * 100)` as exact rational rounding
(round-half-up): `⌊100 * count / total + 1/2⌋`. -/
def jsRound100 (count total : Nat) : Nat :=
  (200 * count + total) / (2 * total)

/-- The statistics record built from a counts table (`participants.forEach`
loop above). -/
def speakerStatsOfCounts (participants : List Participant)
    (counts : List (String × Nat)) : SpeakerStats :=
  let total := totalOf counts
  participants.map fun p =>
    let c := countOf counts p.name
    (p.name, { percentage := jsRound100 c total, speakingTime := c * 5, count := c })

/-- The full effect body: statistics are published only when `total > 0`. -/
def speakerStatsUpdate (participants : List Participant)
    (transcript : List TranscriptEntry) : Option SpeakerStats :=
  let counts := speakerCounts transcript
  if 0 < totalOf counts then some (speakerStatsOfCounts participants counts)
  else none

/-! ## WebSocket message handler (`src/frontend/hooks/use-websocket.ts`)

`ws.onmessage` parses the message, switches on `message.type`, and wraps the
whole dispatch in one `try/catch`; a caught exception is logged and leaves
the store untouched.  The `transcript_update` branch calls
`store.updateTranscript(data)` — a method the store interface never
declares, so in JavaScript the call raises a `TypeError` which the `catch`
swallows.  The handler is embedded as a function from message and store
state to the new store state plus a flag recording whether the `catch`
branch ran. -/

/-- The action names declared by the store's `MeetingState` interface
(`src/frontend/store/meeting-store.ts`, the `// Actions` block). -/
def meetingStoreMethods : List String :=
  ["setTitle", "setAgenda", "setParticipants", "addParticipant",
   "removeParticipant", "setSelectedPrinciples", "startMeeting",
   "addTranscript", "updateTranscriptStream", "addIntervention",
   "dismissIntervention", "updateSpeakerStats", "endMeeting", "reset"]

/-- The message shapes the handler dispatches on.  For `transcript_update`
the branch only inspects `data.id` before the faulty call, so the embedded
payload is that field alone. -/
inductive WsMessage
  | transcript (e : TranscriptEntry)
  | transcriptStream (timestamp speaker chunk : String)
  | transcriptUpdate (id : Option String)
  | intervention (i : Intervention)
  | speakerStatsMsg (st : SpeakerStats)
  | sttStatus (status : String)
  | agentModeStatus (status : Option String)
  | serverError (code : Option String) (message : Option String)
  | unknown (t : String)
  deriving DecidableEq

/-- One `ws.onmessage` dispatch.  Returns the store state after the handler
and `true` when the surrounding `catch` ran (the message was logged as a
failure). -/
def onMessage (m : WsMessage) (s : MeetingState) : MeetingState × Bool :=
  match m with
  | .transcript e =>
      let s1 := addTranscript e s
      -- clear streaming buffer if timestamps match (checked on the snapshot)
      match s.transcriptStream with
      | some cur =>
          if cur.timestamp = e.timestamp ∧ cur.speaker = e.speaker then
            (updateTranscriptStream
              { timestamp := e.timestamp, speaker := e.speaker, text := "" } s1, false)
          else (s1, false)
      | none => (s1, false)
  | .transcriptStream ts sp chunk =>
      (updateTranscriptStream { timestamp := ts, speaker := sp, text := chunk } s, false)
  | .transcriptUpdate id =>
      match id with
      | some _ =>
          if "updateTranscript" ∈ meetingStoreMethods then
            (s, false)  -- never reached: the store declares no such action
          else
            (s, true)   -- TypeError raised and caught by the try/catch
      | none => (s, false)
  | .intervention i => (addIntervention i s, false)
  | .speakerStatsMsg st => (updateSpeakerStats st s, false)
  | .sttStatus _ => (s, false)
  | .agentModeStatus _ => (s, false)
  | .serverError _ _ => (s, false)
  | .unknown _ => (s, false)

/-! ## Reconnect scheduling (`ws.onclose` / `disconnect`)

```js
ws.onclose = (event) => {
  setIsConnected(false);
  wsRef.current = null;
  isConnectingRef.current = false;
  if (!shouldReconnectRef.current || event.code === 1000) { return; }
  const attempt = Math.min(reconnectAttemptsRef.current + 1, 6);
  reconnectAttemptsRef.current = attempt;
  const delay = Math.min(500 * 2 ** (attempt - 1), 8000);
  reconnectTimerRef.current = setTimeout(() => { connect(); }, delay);
};
```

`reconnectTimer` records the delay of the pending reconnect timer, `none`
when no timer is set. -/

/-- The refs of the hook that the close/disconnect paths touch. -/
structure WsConnState where
  isConnected : Bool
  reconnectAttempts : Nat
  shouldReconnect : Bool
  reconnectTimer : Option Nat
  hasSocket : Bool
  deriving DecidableEq, Repr

/-- Delay `Math.min(500 * 2 ** (attempt - 1), 8000)`. -/
def backoffDelay (attempt : Nat) : Nat :=
  min (500 * 2 ^ (attempt - 1)) 8000

/-- Handler `ws.onclose` with close code `code`.  The early return leaves any
pending timer untouched; the reconnect path stores the new delay. -/
def onClose (code : Nat) (s : WsConnState) : WsConnState :=
  let s1 := { s with isConnected := false, hasSocket := false }
  if s.shouldReconnect = false ∨ code = 1000 then s1
  else
    let attempt := min (s.reconnectAttempts + 1) 6
    { s1 with reconnectAttempts := attempt,
              reconnectTimer := some (backoffDelay attempt) }

/-- Hook `disconnect`: disables reconnection, clears the pending timer, closes
the socket with code 1000. -/
def disconnect (s : WsConnState) : WsConnState :=
  { s with shouldReconnect := false, reconnectTimer := none,
           hasSocket := false, isConnected := false }

/-- A sequence of close events processed in order. -/
def processCloses (codes : List Nat) (s : WsConnState) : WsConnState :=
  codes.foldl (fun st c => onClose c st) s

/-! ## Demo simulator (`DemoSimulator` class)

The class schedules one `setTimeout` per script entry; each fired entry
emits a transcript callback and, when the entry carries
`triggerIntervention`, schedules a nested timeout that emits an
intervention callback.  `start()` returns immediately when already running;
the script is scheduled from the `.then` of `buildPersonaScript` and only
if the simulator is still running at resolution time.  `stop()` flips
`isRunning` and clears every tracked timeout.  Every timer callback
re-checks `isRunning` before emitting.

The embedding is an event-driven state machine: events are `start`, `stop`,
the persona-script promise resolving, and a scheduled timer firing.  Timer
handles are `Nat` identifiers issued sequentially; a cleared (removed)
identifier can no longer fire, which is `clearTimeout` semantics.
`Math.random()`-driven choices in `buildDemoContext` become explicit choice
arguments, each selecting one element of the corresponding source array. -/

/-- Participant shape used by the simulator options. -/
structure DemoParticipant where
  name : String
  role : String
  deriving DecidableEq, Repr

/-- Source `DemoScriptEntry` from the simulator module. -/
structure ScriptEntry where
  speaker : String
  text : String
  delay : Nat
  triggerIntervention : Option String
  interventionMessage : Option String
  deriving DecidableEq, Repr

/-- One entry of `driftScenarios` (the `buildMessage` template captured as
a function). -/
structure DriftScenario where
  topic : String
  line : String
  buildMessage : String → String → String

/-- One entry of `decisionScenarios`. -/
structure DecisionScenario where
  leadLine : String
  followLine : String
  message : String
  deriving DecidableEq, Repr

/-- Table `roleBySpeaker` lookup table. -/
def roleBySpeaker (name : String) : Option String :=
  if name = "김철수" then some "PM"
  else if name = "이민수" then some "프론트엔드"
  else if name = "박영희" then some "백엔드"
  else if name = "최지은" then some "디자인"
  else none

/-- Constant `agendaTopics`. -/
def agendaTopics : List String :=
  ["스프린트 계획", "스프린트 회고", "Q1 목표 정리"]

/-- Constant `driftScenarios`. -/
def driftScenarios : List DriftScenario :=
  [ { topic := "점심 메뉴"
      line := "그런데 점심 뭐 먹을까요? 회사 앞에 새로 생긴 라멘집이 맛있다던데요."
      buildMessage := fun agendaTopic topic =>
        "잠깐요, 아젠다에서 벗어났어요. \x27" ++ agendaTopic ++
          "\x27으로 돌아갈게요. " ++ topic ++ "는 Parking Lot에 추가했습니다." },
    { topic := "캐시 TTL"
      line := "Redis 캐시 TTL을 5분으로 하면 어떨까요? 키 구조도 먼저 정해야 합니다."
      buildMessage := fun agendaTopic topic =>
        "지금은 \x27" ++ agendaTopic ++
          "\x27 같은 방향을 정하는 시간이에요. " ++ topic ++
          " 같은 구현 디테일은 Parking Lot에 기록하고 다음 기술 회의로 옮길게요." },
    { topic := "채용 소식"
      line := "아, 오늘 채용 공고 올라간 거 보셨어요? 추천할 사람 있나요?"
      buildMessage := fun agendaTopic topic =>
        "잠깐요, 아젠다에서 벗어났어요. \x27" ++ agendaTopic ++
          "\x27으로 돌아갈게요. " ++ topic ++ "는 Parking Lot에 추가했습니다." } ]

/-- Constant `decisionScenarios`. -/
def decisionScenarios : List DecisionScenario :=
  [ { leadLine := "A안이 낫긴 한데 리소스가 걱정돼요."
      followLine := "B안도 괜찮은데 결정은 다음에 하죠."
      message := "정리할게요. 오늘은 \x27A안 vs B안\x27 비교만 하고 결정은 다음 회의로 넘길까요? 다음 회의 전까지 필요한 데이터가 무엇인지 정해요." },
    { leadLine := "지금은 방향만 잡고 세부사항은 다음에 논의하죠."
      followLine := "그럼 오늘 확정할 건 없는 건가요?"
      message := "오늘 확정할 항목을 한 줄로 정리할게요. 없으면 다음 회의의 결정 기준과 준비 자료를 명확히 하죠." } ]

/-- Source `DemoContext` from the simulator module. -/
structure DemoContext where
  agendaTopic : String
  driftTopic : String
  driftLine : String
  driftParkingLot : String
  driftInterventionMessage : String
  violatedPrinciple : String
  principleViolationLine : String
  principleViolationMessage : String
  decisionLeadLine : String
  decisionFollowLine : String
  decisionInterventionMessage : String
  silentSpeaker : String
  silentSpeakerRole : String
  supportingSpeaker : String
  deriving DecidableEq, Repr

/-- Selection `pick(items)` at a given random index (`Math.floor(Math.random() *
items.length)` is always in range; the fallback is never reached for the
constant arrays above). -/
def pickAt (items : List α) (i : Nat) (fallback : α) : α :=
  items.getD i fallback

/-- Source `buildDemoContext`, with each `Math.random()` choice made explicit:
array indices for agenda/drift/decision picks, `aggressive` for the
violation-mode pick, `silentIsPark` for the silent-speaker pick. -/
def buildDemoContext (agendaIdx driftIdx decisionIdx : Nat)
    (aggressive silentIsPark : Bool) : DemoContext :=
  let agendaTopic := pickAt agendaTopics agendaIdx "스프린트 계획"
  let driftPick := pickAt driftScenarios driftIdx
    { topic := "", line := "", buildMessage := fun _ _ => "" }
  let decisionPick := pickAt decisionScenarios decisionIdx
    { leadLine := "", followLine := "", message := "" }
  let violatedPrinciple := if aggressive then "심리적 안전" else "수평적 의사결정"
  let silentSpeaker := if silentIsPark then "박영희" else "최지은"
  let supportingSpeaker := if silentSpeaker = "박영희" then "최지은" else "박영희"
  let silentSpeakerRole := (roleBySpeaker silentSpeaker).getD "팀원"
  let principleViolationLine :=
    if aggressive then "이건 전적으로 개발팀 책임이에요. 왜 이렇게 기본도 안 돼 있죠?"
    else "이건 제가 결정했으니까, 다들 이대로 진행해 주세요."
  let principleViolationMessage :=
    if aggressive then
      "잠깐요, 표현이 공격적으로 들릴 수 있어요. 사람보다 문제에 집중하고 원인을 같이 정리해 볼까요?"
    else
      "멈춰주세요! \x27" ++ violatedPrinciple ++
        "\x27 원칙 위반입니다. 혼자 결정하시면 안 돼요. 다른 분들 동의하시나요?"
  { agendaTopic := agendaTopic
    driftTopic := driftPick.topic
    driftLine := driftPick.line
    driftParkingLot := driftPick.topic
    driftInterventionMessage := driftPick.buildMessage agendaTopic driftPick.topic
    violatedPrinciple := violatedPrinciple
    principleViolationLine := principleViolationLine
    principleViolationMessage := principleViolationMessage
    decisionLeadLine := decisionPick.leadLine
    decisionFollowLine := decisionPick.followLine
    decisionInterventionMessage := decisionPick.message
    silentSpeaker := silentSpeaker
    silentSpeakerRole := silentSpeakerRole
    supportingSpeaker := supportingSpeaker }

/-- Check `haystack.includes(pattern)` on the underlying character lists. -/
def charsInclude : List Char → List Char → Bool
  | hay, pat =>
    if pat.isPrefixOf hay then true
    else match hay with
      | [] => pat.isEmpty
      | _ :: t => charsInclude t pat

/-- Check `String.prototype.includes`. -/
def strIncludes (hay pat : String) : Bool :=
  charsInclude hay.toList pat.toList

/-- Source `buildInterventionMessages(context)` as an association list keyed by
intervention kind. -/
def buildInterventionMessages (context : DemoContext) :
    List (String × Intervention) :=
  [ ("TOPIC_DRIFT",
     { id := "int_demo_001", type := "TOPIC_DRIFT"
       message := context.driftInterventionMessage, timestamp := ""
       violatedPrinciple := none
       parkingLotItem := some context.driftParkingLot
       suggestedSpeaker := none }),
    ("PRINCIPLE_VIOLATION",
     { id := "int_demo_002", type := "PRINCIPLE_VIOLATION"
       message := context.principleViolationMessage, timestamp := ""
       violatedPrinciple :=
         some (if strIncludes context.principleViolationMessage "원칙 위반"
               then context.violatedPrinciple else "심리적 안전")
       parkingLotItem := none, suggestedSpeaker := none }),
    ("PARTICIPATION_IMBALANCE",
     { id := "int_demo_003", type := "PARTICIPATION_IMBALANCE"
       message := "잠깐요! " ++ context.silentSpeaker ++
         " 님 아직 한 번도 발언 안 하셨어요. " ++ context.silentSpeakerRole ++
         " 관점에서 어떻게 보세요?"
       timestamp := "", violatedPrinciple := none, parkingLotItem := none
       suggestedSpeaker := some context.silentSpeaker }),
    ("DECISION_STYLE",
     { id := "int_demo_004", type := "DECISION_STYLE"
       message := context.decisionInterventionMessage, timestamp := ""
       violatedPrinciple := none, parkingLotItem := none
       suggestedSpeaker := none }),
    ("FACILITATOR_CHECK",
     { id := "int_demo_005", type := "FACILITATOR_CHECK"
       message := "퍼실리테이터 확인: 발언 내용을 점검합니다.", timestamp := ""
       violatedPrinciple := none, parkingLotItem := none
       suggestedSpeaker := none }) ]

/-- Source `buildDemoScript(context)` — the eleven-line main demo script. -/
def buildDemoScript (context : DemoContext) : List ScriptEntry :=
  [ { speaker := "김철수"
      text := "지난 스프린트에서 주요 목표를 달성했습니다. 먼저 " ++
        context.agendaTopic ++ "부터 정리할게요."
      delay := 0, triggerIntervention := none, interventionMessage := none },
    { speaker := "이민수"
      text := "네, 특히 로그인 성능 개선이 눈에 띄었습니다. 데이터도 공유드릴게요."
      delay := 3000, triggerIntervention := none, interventionMessage := none },
    { speaker := "김철수"
      text := "다음 스프린트에서는 온보딩 이탈률을 줄이는 쪽으로 집중하면 좋겠습니다."
      delay := 6000, triggerIntervention := none, interventionMessage := none },
    { speaker := "이민수", text := context.driftLine
      delay := 10000, triggerIntervention := some "TOPIC_DRIFT"
      interventionMessage := none },
    { speaker := "김철수"
      text := "좋아요. 다시 " ++ context.agendaTopic ++ "로 돌아가서 우선순위를 정하죠."
      delay := 16000, triggerIntervention := none, interventionMessage := none },
    { speaker := "김철수"
      text := "이번 스프린트는 API 응답 속도 개선을 1순위로 두겠습니다."
      delay := 20000, triggerIntervention := none, interventionMessage := none },
    { speaker := "김철수", text := context.principleViolationLine
      delay := 24000, triggerIntervention := some "PRINCIPLE_VIOLATION"
      interventionMessage := none },
    { speaker := context.supportingSpeaker
      text := "네, 우선 그렇게 진행하겠습니다."
      delay := 30000, triggerIntervention := none, interventionMessage := none },
    { speaker := "이민수", text := context.decisionLeadLine
      delay := 32000, triggerIntervention := none, interventionMessage := none },
    { speaker := "김철수", text := context.decisionFollowLine
      delay := 36000, triggerIntervention := some "DECISION_STYLE"
      interventionMessage := none },
    { speaker := "김철수"
      text := "좋습니다. 그럼 다음 주까지 각자 태스크 정리해주세요."
      delay := 41000, triggerIntervention := some "PARTICIPATION_IMBALANCE"
      interventionMessage := none } ]

/-- Source `clampSummary(text, limit = 80)`. -/
def clampSummary (text : String) (limit : Nat) : String :=
  if text.length ≤ limit then text
  else (text.take (limit - 3)) ++ "..."

/-- Source `buildPersonaFallbackLines(persona, agenda, participants)` — three
entries, all carrying `triggerIntervention: "FACILITATOR_CHECK"`. -/
def buildPersonaFallbackLines (persona agenda : String)
    (participants : List DemoParticipant) : List ScriptEntry :=
  let speaker := match participants.head? with
    | some p => if p.name = "" then "김철수" else p.name
    | none => "김철수"
  let role := match participants.head? with
    | some p => if p.role = "" then "PM" else p.role
    | none => "PM"
  let base :=
    [ agenda ++ "에 대해 " ++ persona ++ " 톤으로 바로 정리할게요.",
      "핵심은 " ++ agenda ++ "에서 가장 큰 리스크를 먼저 제거하는 겁니다.",
      role ++ " 관점에서 지금 당장 할 일은 우선순위 2~3개로 압축하는 거예요." ]
  base.enum.map fun p =>
    { speaker := speaker, text := p.2, delay := p.1 * 3000
      triggerIntervention := some "FACILITATOR_CHECK"
      interventionMessage := some ("퍼실리테이터 확인: " ++ clampSummary p.2 80) }

/-- Source `buildPersonaScript(options)` on the `useLLM: false` path (no network
request is made; the fallback lines are returned), with the option
defaulting of the source: empty/missing agenda and persona fall back to
their defaults, an empty participants list falls back to the default
four. -/
def buildPersonaScriptNoLLM (agendaOpt personaOpt : Option String)
    (participantsOpt : List DemoParticipant) : List ScriptEntry :=
  let agenda := match agendaOpt with
    | some a => if a.trim = "" then "스프린트 계획" else a.trim
    | none => "스프린트 계획"
  let persona := match personaOpt with
    | some p => if p.trim = "" then "직설적이고 빠른 의사결정" else p.trim
    | none => "직설적이고 빠른 의사결정"
  let participants :=
    if participantsOpt.isEmpty then
      [ { name := "김철수", role := "PM" },
        { name := "이민수", role := "프론트엔드" },
        { name := "박영희", role := "백엔드" },
        { name := "최지은", role := "디자인" } ]
    else participantsOpt
  buildPersonaFallbackLines persona agenda participants

/-- A scheduled timeout: the outer per-entry timer or the nested 1200 ms
intervention timer. -/
inductive TimerPayload
  | entryTimer (index : Nat) (e : ScriptEntry)
  | interventionTimer (index : Nat) (e : ScriptEntry)
  deriving DecidableEq, Repr

/-- The simulator's mutable fields plus its pending timers. -/
structure SimState where
  isRunning : Bool
  nextTimerId : Nat
  timeouts : List (Nat × TimerPayload)
  promisePending : Bool
  script : List ScriptEntry
  interventionMessages : List (String × Intervention)
  deriving DecidableEq, Repr

/-- A callback invocation observable from outside the simulator. -/
inductive Emit
  | transcript (e : TranscriptEntry)
  | intervention (triggerIndex : Nat) (i : Intervention)
  deriving DecidableEq, Repr

/-- The events the event loop can deliver to the simulator. -/
inductive SimEvent
  | start
  | stop
  | promiseResolve (personaScript : List ScriptEntry)
  | fire (id : Nat)
  deriving DecidableEq, Repr

/-- The constructor: `this.script = buildDemoScript(context)`,
`this.interventionMessages = buildInterventionMessages(context)`, no timer
pending, not running. -/
def initSim (context : DemoContext) : SimState :=
  { isRunning := false, nextTimerId := 0, timeouts := []
    promisePending := false
    script := buildDemoScript context
    interventionMessages := buildInterventionMessages context }

/-- Association-list lookup for timers. -/
def lookupTimer : List (Nat × TimerPayload) → Nat → Option TimerPayload
  | [], _ => none
  | (k, v) :: rest, i => if k = i then some v else lookupTimer rest i

/-- Association-list lookup for the intervention-message table. -/
def lookupMessage : List (String × Intervention) → String → Option Intervention
  | [], _ => none
  | (k, v) :: rest, kind => if k = kind then some v else lookupMessage rest kind

/-- The combined script built inside the promise callback: persona entries
first, then the main script shifted by `personaOffset`. -/
def combineScript (personaScript mainScript : List ScriptEntry) :
    List ScriptEntry :=
  let personaOffset := match personaScript.getLast? with
    | some last => last.delay + 2000
    | none => 0
  personaScript ++ mainScript.map (fun e => { e with delay := e.delay + personaOffset })

/-- Method `start()`: a no-op when already running, otherwise flips `isRunning`
and launches `buildPersonaScript` (the promise becomes pending). -/
def simStart (s : SimState) : SimState :=
  if s.isRunning then s
  else { s with isRunning := true, promisePending := true }

/-- Method `stop()`: flips `isRunning` and clears every tracked timeout. -/
def simStop (s : SimState) : SimState :=
  { s with isRunning := false, timeouts := [] }

/-- The `.then` callback of `buildPersonaScript`: ignored when the promise
is not pending; returns early when no longer running; otherwise schedules
one timer per combined-script entry. -/
def simPromiseResolve (personaScript : List ScriptEntry) (s : SimState) :
    SimState :=
  if s.promisePending = false then s
  else
    let s1 := { s with promisePending := false }
    if s1.isRunning = false then s1
    else
      let combined := combineScript personaScript s1.script
      let timers := combined.enum.map fun p =>
        (s1.nextTimerId + p.1, TimerPayload.entryTimer p.1 p.2)
      { s1 with timeouts := s1.timeouts ++ timers
                nextTimerId := s1.nextTimerId + combined.length }

/-- A scheduled timer fires: a cleared identifier does nothing; the
callback re-checks `isRunning`; an entry timer emits the transcript
callback and schedules the nested intervention timer when the entry has a
trigger; the nested timer emits the intervention callback, preferring the
entry's own `interventionMessage` over the per-kind table. -/
def simFire (id : Nat) (s : SimState) : SimState × List Emit :=
  match lookupTimer s.timeouts id with
  | none => (s, [])
  | some payload =>
    let s1 := { s with timeouts := s.timeouts.filter (fun t => t.1 ≠ id) }
    if s1.isRunning = false then (s1, [])
    else
      match payload with
      | .entryTimer i e =>
          let tr : TranscriptEntry :=
            { id := "tr_demo_" ++ toString i, timestamp := ""
              speaker := e.speaker, text := e.text, latencyMs := none }
          match e.triggerIntervention with
          | none => (s1, [Emit.transcript tr])
          | some _ =>
              ({ s1 with
                  timeouts := s1.timeouts ++ [(s1.nextTimerId, .interventionTimer i e)]
                  nextTimerId := s1.nextTimerId + 1 },
               [Emit.transcript tr])
      | .interventionTimer i e =>
          match e.triggerIntervention with
          | none => (s1, [])
          | some kind =>
              let base := match e.interventionMessage with
                | some msg =>
                    { id := "int_demo_" ++ toString i, type := kind
                      message := msg, timestamp := ""
                      violatedPrinciple := none, parkingLotItem := none
                      suggestedSpeaker := none }
                | none =>
                    (lookupMessage s1.interventionMessages kind).getD
                      { id := "", type := "", message := "", timestamp := ""
                        violatedPrinciple := none, parkingLotItem := none
                        suggestedSpeaker := none }
              (s1, [Emit.intervention i base])

/-- One event-loop step of the simulator. -/
def simStep : SimState → SimEvent → SimState × List Emit
  | s, .start => (simStart s, [])
  | s, .stop => (simStop s, [])
  | s, .promiseResolve ps => (simPromiseResolve ps s, [])
  | s, .fire id => simFire id s

/-- A whole event sequence; emissions are concatenated in order. -/
def simRun (s : SimState) : List SimEvent → SimState × List Emit
  | [] => (s, [])
  | e :: evs =>
    let r1 := simStep s e
    let r2 := simRun r1.1 evs
    (r2.1, r1.2 ++ r2.2)

/-- The interventions among a stream of emissions, as
(triggering utterance index, kind) pairs. -/
def emittedHistory (emits : List Emit) : List (Nat × String) :=
  emits.filterMap fun
    | Emit.intervention idx i => some (idx, i.type)
    | _ => none

/-- Delivering one simulator callback into the meeting store, as the
meeting pages wire them: transcript callbacks call `addTranscript`,
intervention callbacks call `addIntervention`. -/
def recordEmit (s : MeetingState) : Emit → MeetingState
  | .transcript e => addTranscript e s
  | .intervention _ i => addIntervention i s

/-- Delivering a whole emission stream into the store. -/
def recordRun (emits : List Emit) (s : MeetingState) : MeetingState :=
  emits.foldl recordEmit s

/-- The claimed cooldown discipline: any two same-kind interventions are
at least `w` apart in triggering position. -/
def cooldownRespected (w : Nat) (hist : List (Nat × String)) : Prop :=
  hist.Pairwise fun a b => a.2 = b.2 → w ≤ Nat.dist a.1 b.1

instance (w : Nat) (hist : List (Nat × String)) :
    Decidable (cooldownRespected w hist) := by
  unfold cooldownRespected
  infer_instance

/-! ### One concrete demo run

A simulator constructed with the first outcome of every random pick, run
with `useLLM: false` and default options: the persona promise resolves
with the three fallback lines (all of kind `FACILITATOR_CHECK`), the first
two entry timers and their two nested intervention timers fire in
real-time order.  The combined script has `3 + 11 = 14` entries, so the
nested timers receive identifiers 14 and 15. -/

/-- The demo context with every random pick taking its first outcome. -/
def demoContext0 : DemoContext :=
  buildDemoContext 0 0 0 false true

/-- The persona script delivered by the resolved promise under default
options with `useLLM: false`. -/
def demoPersonaScript : List ScriptEntry :=
  buildPersonaScriptNoLLM none none []

/-- The freshly constructed simulator. -/
def demoSim0 : SimState := initSim demoContext0

/-- Events `start`, promise resolution, then the first four timer firings in
real-time order (entry 0 at 0 ms, its intervention at 1200 ms, entry 1 at
3000 ms, its intervention at 4200 ms). -/
def demoEvents : List SimEvent :=
  [SimEvent.start, SimEvent.promiseResolve demoPersonaScript,
   SimEvent.fire 0, SimEvent.fire 14, SimEvent.fire 1, SimEvent.fire 15]

/-- The emissions of that run. -/
def demoEmits : List Emit := (simRun demoSim0 demoEvents).2

/-- Its intervention history as (triggering index, kind) pairs. -/
def demoHistory : List (Nat × String) := emittedHistory demoEmits

/-- The meeting store after the run's callbacks are delivered. -/
def demoStore : MeetingState := recordRun demoEmits initialState

/-- A concrete transcript entry used in concrete instances. -/
def sampleEntry (n : Nat) : TranscriptEntry :=
  { id := toString n, timestamp := "", speaker := "김철수"
    text := "발언 " ++ toString n, latencyMs := none }

/-- The store state after the utterances 1, 2, 3 have been appended. -/
def stateSeq123 : MeetingState :=
  applyAll
    [Action.addTranscript (sampleEntry 1), Action.addTranscript (sampleEntry 2),
     Action.addTranscript (sampleEntry 3)] initialState

/-! ## InterventionArbiter (spec §4.3)

The arbiter belongs to the backend moderation core, which is not among the
repository's frontend sources; it is modelled from the specification
text. -/

/-- Modelled from the spec: the intervention kinds named by the priority
order of §4.3 (the arbiter implementation is not among the sources). -/
inductive Kind
  | principleViolation
  | topicDrift
  | participationImbalance
  | decisionStyle
  deriving DecidableEq, Repr

/-- Modelled from the spec: the fixed priority order "principle violation >
topic drift > participation imbalance > decision style"; a smaller rank is
a higher priority. -/
def Kind.rank : Kind → Nat
  | .principleViolation => 0
  | .topicDrift => 1
  | .participationImbalance => 2
  | .decisionStyle => 3

/-- Modelled from the spec: an `InterventionCandidate` — kind, triggering
sequence number, proposing agent identity (the justification payload is
opaque and omitted).  Proposing order is the list order of a round's
candidates. -/
structure Candidate where
  kind : Kind
  seq : Nat
  agent : String
  deriving DecidableEq, Repr

/-- Modelled from the spec: the store's `InterventionCooldown` clocks —
per kind, the sequence number of the last emission and the configured
window length. -/
structure Cooldowns where
  lastEmit : Kind → Option Nat
  window : Kind → Nat

/-- Modelled from the spec: a candidate is inside its kind's cooldown
window when its triggering sequence number is closer to the last emission
than the window length. -/
def inCooldown (cd : Cooldowns) (c : Candidate) : Bool :=
  match cd.lastEmit c.kind with
  | none => false
  | some last => c.seq < last + cd.window c.kind

/-- Modelled from the spec: discard any candidate whose kind is currently
inside its cooldown window. -/
def surviveCooldown (cd : Cooldowns) (cands : List Candidate) :
    List Candidate :=
  cands.filter fun c => !(inCooldown cd c)

/-- Modelled from the spec: select the surviving candidate of
highest-priority kind, ties broken by proposing order (the earlier
candidate wins). -/
def selectByRank : List Candidate → Option Candidate
  | [] => none
  | c :: rest =>
    match selectByRank rest with
    | none => some c
    | some b => if b.kind.rank < c.kind.rank then some b else some c

/-- Modelled from the spec: `InterventionArbiter.resolve` — cooldown
filtering followed by priority selection; `none` when no candidate
survives. -/
def resolve (cands : List Candidate) (cd : Cooldowns) : Option Candidate :=
  selectByRank (surviveCooldown cd cands)

/-! ## StructuredOutputRunner (spec §4.1)

The runner also belongs to the absent backend core and is modelled from
the specification.  The prompt context is a list of segments; feeding a
validation error back "appends the validation error text to the prompt
context". -/

/-- Modelled from the spec: `StructuredOutputResult` — success with
attempts used XOR failure with last error detail and attempts used. -/
inductive RunnerResult (α : Type)
  | success (payload : α) (attempts : Nat)
  | failure (lastError : String) (attempts : Nat)
  deriving DecidableEq, Repr

/-- The attempts-used field of either outcome. -/
def RunnerResult.attemptsUsed : RunnerResult α → Nat
  | .success _ n => n
  | .failure _ n => n

/-- Whether the result is a terminal failure. -/
def RunnerResult.isFailure : RunnerResult α → Bool
  | .success _ _ => false
  | .failure _ _ => true

/-- Modelled from the spec: the attempt loop of §4.1.  `model` maps a
prompt context to the raw model output, `validate` is the schema
parse/validation step, `remaining` is the attempt budget left, `attempt`
the current attempt number.  On `INVALID` with budget remaining, the error
text is appended to the prompt context and the loop re-enters `ATTEMPTING`;
with the budget exhausted the terminal failure reports the attempts used.
The second component collects the prompt context used by each attempt, in
order. -/
def runnerGo (model : List String → String) (validate : String → Except String α) :
    Nat → Nat → List String → RunnerResult α × List (List String)
  | 0, attempt, _ => (.failure "" (attempt - 1), [])
  | remaining + 1, attempt, prompt =>
    let raw := model prompt
    match validate raw with
    | .ok v => (.success v attempt, [prompt])
    | .error err =>
      if remaining = 0 then (.failure err attempt, [prompt])
      else
        let next := runnerGo model validate remaining (attempt + 1) (prompt ++ [err])
        (next.1, prompt :: next.2)

/-- Modelled from the spec: `StructuredOutputRunner.run` with a given
`max_attempts` and initial prompt context. -/
def runStructured (model : List String → String)
    (validate : String → Except String α) (maxAttempts : Nat)
    (prompt : List String) : RunnerResult α × List (List String) :=
  runnerGo model validate maxAttempts 1 prompt

/-- Concrete intervention used in concrete instances. -/
def sampleIntervention : Intervention :=
  { id := "int_1", type := "TOPIC_DRIFT", message := "m", timestamp := ""
    violatedPrinciple := none, parkingLotItem := none, suggestedSpeaker := none }

/-- Concrete candidate round used in concrete instances: a topic-drift
candidate proposed before a principle-violation candidate, both at
sequence number 10. -/
def roundCands : List Candidate :=
  [ { kind := .topicDrift, seq := 10, agent := "topic" },
    { kind := .principleViolation, seq := 10, agent := "principle" } ]

/-- Concrete cooldown state used in concrete instances: nothing emitted
yet, window 5 for every kind. -/
def roundCd : Cooldowns :=
  { lastEmit := fun _ => none, window := fun _ => 5 }

/-- Concrete connection state used in concrete instances. -/
def wsSample : WsConnState :=
  { isConnected := true, reconnectAttempts := 2, shouldReconnect := true
    reconnectTimer := none, hasSocket := true }

/-! ## Helper lemmas -/

/-- Unfolding one action of `applyAll`. -/
theorem applyAll_cons (a : Action) (acts : List Action) (s : MeetingState) :
    applyAll (a :: acts) s = applyAll acts (a.apply s) := rfl

/-- The streaming-buffer merge touches no other field. -/
theorem updateTranscriptStream_fields (c : TranscriptStream) (s : MeetingState) :
    (updateTranscriptStream c s).transcript = s.transcript
  ∧ (updateTranscriptStream c s).status = s.status
  ∧ (updateTranscriptStream c s).interventions = s.interventions := by
  unfold updateTranscriptStream
  cases s.transcriptStream
  · exact ⟨rfl, rfl, rfl⟩
  · dsimp only
    split
    · exact ⟨rfl, rfl, rfl⟩
    · exact ⟨rfl, rfl, rfl⟩

/-- Every non-`reset` action extends the transcript by exactly its
`addTranscript` payload (usually nothing). -/
theorem apply_transcript_step (a : Action) (s : MeetingState)
    (h : a ≠ Action.reset) :
    (a.apply s).transcript = s.transcript ++ (Action.entryOf a).toList := by
  cases a
  case reset => exact absurd rfl h
  case addTranscript e => simp [Action.apply, Action.entryOf, addTranscript]
  case updateTranscriptStream c =>
    simp [Action.apply, Action.entryOf, (updateTranscriptStream_fields c s).1]
  all_goals
    simp [Action.apply, Action.entryOf, setTitle, setAgenda, setParticipants,
      addParticipant, removeParticipant, setSelectedPrinciples, startMeeting,
      addIntervention, dismissIntervention, updateSpeakerStats, endMeeting]

/-- Every non-`reset` action extends the intervention history by exactly
its `addIntervention` payload (usually nothing). -/
theorem apply_interventions_step (a : Action) (s : MeetingState)
    (h : a ≠ Action.reset) :
    (a.apply s).interventions = s.interventions ++ (Action.interventionOf a).toList := by
  cases a
  case reset => exact absurd rfl h
  case addIntervention i =>
    simp [Action.apply, Action.interventionOf, addIntervention]
  case updateTranscriptStream c =>
    simp [Action.apply, Action.interventionOf, (updateTranscriptStream_fields c s).2.2]
  all_goals
    simp [Action.apply, Action.interventionOf, setTitle, setAgenda, setParticipants,
      addParticipant, removeParticipant, setSelectedPrinciples, startMeeting,
      addTranscript, dismissIntervention, updateSpeakerStats, endMeeting]

/-- Over any `reset`-free action sequence, the transcript is the old
transcript followed by the appended entries, in order. -/
theorem applyAll_transcript (acts : List Action) :
    ∀ (s : MeetingState), (∀ a ∈ acts, a ≠ Action.reset) →
      (applyAll acts s).transcript =
        s.transcript ++ acts.filterMap Action.entryOf := by
  induction acts with
  | nil => intro s _; simp [applyAll]
  | cons a rest ih =>
    intro s h
    have ha : a ≠ Action.reset := h a (List.mem_cons_self a rest)
    have hrest : ∀ b ∈ rest, b ≠ Action.reset :=
      fun b hb => h b (List.mem_cons_of_mem a hb)
    rw [applyAll_cons, ih (a.apply s) hrest, apply_transcript_step a s ha]
    cases hE : Action.entryOf a <;>
      simp [List.filterMap_cons, hE, List.append_assoc]

/-- Over any `reset`-free action sequence, the intervention history is the
old history followed by the recorded interventions, in order. -/
theorem applyAll_interventions (acts : List Action) :
    ∀ (s : MeetingState), (∀ a ∈ acts, a ≠ Action.reset) →
      (applyAll acts s).interventions =
        s.interventions ++ acts.filterMap Action.interventionOf := by
  induction acts with
  | nil => intro s _; simp [applyAll]
  | cons a rest ih =>
    intro s h
    have ha : a ≠ Action.reset := h a (List.mem_cons_self a rest)
    have hrest : ∀ b ∈ rest, b ≠ Action.reset :=
      fun b hb => h b (List.mem_cons_of_mem a hb)
    rw [applyAll_cons, ih (a.apply s) hrest, apply_interventions_step a s ha]
    cases hI : Action.interventionOf a <;>
      simp [List.filterMap_cons, hI, List.append_assoc]

/-- Folding one more entry on the right is one `foldOne` update. -/
theorem speakerCounts_snoc (log : List TranscriptEntry) (e : TranscriptEntry) :
    speakerCounts (log ++ [e]) = foldOne (speakerCounts log) e := by
  simp [speakerCounts, List.foldl_append]

/-- The iterated view is the left fold of the reversed-reversed log. -/
theorem speakerCountsIterAux_eq (l : List TranscriptEntry) :
    speakerCountsIterAux l = l.reverse.foldl foldOne [] := by
  induction l with
  | nil => rfl
  | cons e t ih =>
    simp [speakerCountsIterAux, ih, List.foldl_append]

/-- The quiescent simulator (stopped, no pending timers) stays quiescent
and emits nothing under any event other than `start`. -/
theorem sim_quiescent_step (s : SimState) (e : SimEvent)
    (hrun : s.isRunning = false) (htim : s.timeouts = [])
    (hne : e ≠ SimEvent.start) :
    (simStep s e).1.isRunning = false ∧ (simStep s e).1.timeouts = []
  ∧ (simStep s e).2 = [] := by
  cases e
  case start => exact absurd rfl hne
  case stop => exact ⟨rfl, rfl, rfl⟩
  case promiseResolve ps =>
    simp only [simStep, simPromiseResolve]
    by_cases hp : s.promisePending = false
    · rw [if_pos hp]
      exact ⟨hrun, htim, trivial⟩
    · rw [if_neg hp]
      simp [hrun, htim]
  case fire id =>
    simp [simStep, simFire, htim, lookupTimer, hrun]

/-- A quiescent simulator emits nothing over any `start`-free event
sequence. -/
theorem sim_quiescent_run (evs : List SimEvent) :
    ∀ (s : SimState), s.isRunning = false → s.timeouts = [] →
      (∀ e ∈ evs, e ≠ SimEvent.start) → (simRun s evs).2 = [] := by
  induction evs with
  | nil => intro s _ _ _; rfl
  | cons e rest ih =>
    intro s h1 h2 h3
    have he : e ≠ SimEvent.start := h3 e (List.mem_cons_self e rest)
    have hrest : ∀ b ∈ rest, b ≠ SimEvent.start :=
      fun b hb => h3 b (List.mem_cons_of_mem e hb)
    have hq := sim_quiescent_step s e h1 h2 he
    show ((simStep s e).2 ++ (simRun (simStep s e).1 rest).2) = []
    rw [hq.2.2, ih (simStep s e).1 hq.1 hq.2.1 hrest]
    rfl

/-- Priority selection returns the first candidate of minimal rank. -/
theorem selectByRank_min : ∀ (l : List Candidate), l ≠ [] →
    ∃ c, selectByRank l = some c ∧ c ∈ l
      ∧ (∀ b ∈ l, c.kind.rank ≤ b.kind.rank)
      ∧ (l.filter (fun b => b.kind.rank == c.kind.rank)).head? = some c := by
  intro l
  induction l with
  | nil => intro h; exact absurd rfl h
  | cons c rest ih =>
    intro _
    by_cases hr : rest = []
    · subst hr
      refine ⟨c, rfl, List.mem_cons_self c [], ?_, ?_⟩
      · intro b hb
        rw [List.mem_singleton] at hb
        subst hb
        exact Nat.le_refl _
      · simp [List.filter]
    · obtain ⟨b, hbsel, hbmem, hbmin, hbfirst⟩ := ih hr
      by_cases hlt : b.kind.rank < c.kind.rank
      · refine ⟨b, ?_, List.mem_cons_of_mem c hbmem, ?_, ?_⟩
        · simp only [selectByRank, hbsel, if_pos hlt]
        · intro x hx
          rcases List.mem_cons.mp hx with hx | hx
          · subst hx; exact Nat.le_of_lt hlt
          · exact hbmin x hx
        · rw [List.filter_cons,
            if_neg (by simp only [beq_iff_eq]; exact Nat.ne_of_gt hlt)]
          exact hbfirst
      · refine ⟨c, ?_, List.mem_cons_self c rest, ?_, ?_⟩
        · simp only [selectByRank, hbsel, if_neg hlt]
        · intro x hx
          rcases List.mem_cons.mp hx with hx | hx
          · subst hx; exact Nat.le_refl _
          · exact Nat.le_trans (Nat.not_lt.mp hlt) (hbmin x hx)
        · rw [List.filter_cons, if_pos (by simp)]
          rfl

/-! ## Claims -/

/-- C1: the claim states that once a meeting is `completed`, every
subsequent `addTranscript` is rejected with the transcript unchanged.
This is false: the store action appends unconditionally.  At the concrete
completed state below the transcript grows from three entries to four. -/
theorem addTranscript_after_completed_counterexample :
    (endMeeting stateSeq123).status = Status.completed
  ∧ (endMeeting stateSeq123).transcript.length = 3
  ∧ (addTranscript (sampleEntry 4) (endMeeting stateSeq123)).transcript.length = 4
  ∧ (addTranscript (sampleEntry 4) (endMeeting stateSeq123)).transcript
      ≠ (endMeeting stateSeq123).transcript := by
  decide

/-- C1 (amended): after `endMeeting` freezes the status at `completed`,
`addTranscript` is not rejected: it appends the entry exactly as in any
other status, and the status stays `completed`. -/
theorem addTranscript_after_completed_appends :
    ∀ (s : MeetingState) (e : TranscriptEntry), s.status = Status.completed →
      (addTranscript e s).transcript = s.transcript ++ [e]
    ∧ (addTranscript e s).status = Status.completed := by
  intro s e h
  exact ⟨rfl, h⟩

/-- C1 witness: the amended statement at the concrete completed state. -/
theorem addTranscript_after_completed_appends_witness :
    (addTranscript (sampleEntry 4) (endMeeting stateSeq123)).transcript
      = (endMeeting stateSeq123).transcript ++ [sampleEntry 4]
  ∧ (addTranscript (sampleEntry 4) (endMeeting stateSeq123)).status
      = Status.completed :=
  addTranscript_after_completed_appends (endMeeting stateSeq123)
    (sampleEntry 4) rfl

/-- C2: the claim states that an utterance whose sequence number is not
last-accepted-plus-one is rejected, leaving the last accepted sequence and
the transcript unchanged.  This is false: `addTranscript` performs no
sequence validation and the store keeps no last-accepted-sequence state;
appending entry "5" after entries "1", "2", "3" extends the transcript to
four entries with "5" last. -/
theorem sequence_gap_counterexample :
    stateSeq123.transcript.length = 3
  ∧ (addTranscript (sampleEntry 5) stateSeq123).transcript.length = 4
  ∧ (addTranscript (sampleEntry 5) stateSeq123).transcript.getLast?
      = some (sampleEntry 5)
  ∧ (addTranscript (sampleEntry 5) stateSeq123).transcript
      ≠ stateSeq123.transcript := by
  decide

/-- C2 (amended): the store performs no sequence validation whatsoever:
over any `reset`-free action sequence, every appended entry lands in the
transcript, in order, regardless of its contents, of the meeting status,
and of any numbering. -/
theorem transcript_appends_unconditionally :
    ∀ (acts : List Action) (s : MeetingState),
      (∀ a ∈ acts, a ≠ Action.reset) →
      (applyAll acts s).transcript =
        s.transcript ++ acts.filterMap Action.entryOf := by
  intro acts s h
  exact applyAll_transcript acts s h

/-- C2 witness: the amended statement at a concrete sequence (an
out-of-order append after `endMeeting`). -/
theorem transcript_appends_unconditionally_witness :
    (applyAll [Action.endMeeting, Action.addTranscript (sampleEntry 5)]
        stateSeq123).transcript
      = stateSeq123.transcript ++
          ([Action.endMeeting, Action.addTranscript (sampleEntry 5)].filterMap
            Action.entryOf) :=
  transcript_appends_unconditionally
    [Action.endMeeting, Action.addTranscript (sampleEntry 5)] stateSeq123
    (by decide)

/-- C3: the claim states that same-kind interventions recorded in a
meeting's history are always at least one cooldown window apart.  This is
false: in the concrete demo run the persona fallback script emits
`FACILITATOR_CHECK` interventions at the consecutive triggering utterance
indices 0 and 1, distance 1, inside the spec's own example window of 5,
and the store records both. -/
theorem demo_same_kind_adjacent_counterexample :
    demoHistory = [(0, "FACILITATOR_CHECK"), (1, "FACILITATOR_CHECK")]
  ∧ ¬ cooldownRespected 5 demoHistory
  ∧ demoStore.interventions.map (fun i => i.type)
      = ["FACILITATOR_CHECK", "FACILITATOR_CHECK"] := by
  decide

/-- C3 (amended): no cooldown filtering exists in the store or the demo
path: over any `reset`-free action sequence every recorded intervention
lands in the history unconditionally, and the concrete demo run records
same-kind interventions closer than any window of at least 2. -/
theorem interventions_recorded_unfiltered :
    (∀ (acts : List Action) (s : MeetingState),
      (∀ a ∈ acts, a ≠ Action.reset) →
      (applyAll acts s).interventions =
        s.interventions ++ acts.filterMap Action.interventionOf)
  ∧ ∀ w, 2 ≤ w → ¬ cooldownRespected w demoHistory := by
  constructor
  · intro acts s h
    exact applyAll_interventions acts s h
  · intro w hw hcd
    have hh : demoHistory = [(0, "FACILITATOR_CHECK"), (1, "FACILITATOR_CHECK")] := by
      decide
    rw [hh] at hcd
    rcases List.pairwise_cons.mp hcd with ⟨h1, _⟩
    have h2 := h1 (1, "FACILITATOR_CHECK") (by simp) rfl
    simp [Nat.dist] at h2
    omega

/-- C3 witness: the amended statement at concrete inputs (one recorded
intervention, and the spec's example window 5). -/
theorem interventions_recorded_unfiltered_witness :
    ((applyAll [Action.addIntervention sampleIntervention] initialState).interventions
      = initialState.interventions ++
          ([Action.addIntervention sampleIntervention].filterMap
            Action.interventionOf))
  ∧ ¬ cooldownRespected 5 demoHistory :=
  ⟨interventions_recorded_unfiltered.1 [Action.addIntervention sampleIntervention]
      initialState (by decide),
   interventions_recorded_unfiltered.2 5 (by decide)⟩

/-- C4: in any analysis round whose cooldown-surviving candidates number
at least two and have pairwise different kinds, the arbiter emits exactly
one intervention (the `Option` result is `some`), its kind has the
highest priority present among the survivors, and ties are broken by
proposing order (it is the first survivor of that rank). -/
theorem arbiter_emits_highest_priority :
    ∀ (cands : List Candidate) (cd : Cooldowns),
      2 ≤ (surviveCooldown cd cands).length →
      (surviveCooldown cd cands).Pairwise (fun a b => a.kind ≠ b.kind) →
      ∃ c, resolve cands cd = some c
        ∧ c ∈ surviveCooldown cd cands
        ∧ (∀ b ∈ surviveCooldown cd cands, c.kind.rank ≤ b.kind.rank)
        ∧ ((surviveCooldown cd cands).filter
            (fun b => b.kind.rank == c.kind.rank)).head? = some c := by
  intro cands cd hlen _hdistinct
  have hne : surviveCooldown cd cands ≠ [] := by
    intro h
    rw [h] at hlen
    simp at hlen
  exact selectByRank_min (surviveCooldown cd cands) hne

/-- C4 witness: the concrete round with a topic-drift candidate proposed
before a principle-violation candidate, no cooldown active. -/
theorem arbiter_emits_highest_priority_witness :
    ∃ c, resolve roundCands roundCd = some c
      ∧ c ∈ surviveCooldown roundCd roundCands
      ∧ (∀ b ∈ surviveCooldown roundCd roundCands, c.kind.rank ≤ b.kind.rank)
      ∧ ((surviveCooldown roundCd roundCands).filter
          (fun b => b.kind.rank == c.kind.rank)).head? = some c :=
  arbiter_emits_highest_priority roundCands roundCd (by decide) (by decide)

/-- C5: the participation statistics are a pure fold of the transcript:
the whole-log fold equals the iterated single-entry update from empty
statistics, folding one more entry is one `foldOne` update, and the
published statistics are fully determined by the iterated counts. -/
theorem participation_fold_refolds :
    (∀ (log : List TranscriptEntry), speakerCounts log = speakerCountsIter log)
  ∧ (∀ (log : List TranscriptEntry) (e : TranscriptEntry),
      speakerCounts (log ++ [e]) = foldOne (speakerCounts log) e)
  ∧ (∀ (ps : List Participant) (log : List TranscriptEntry),
      speakerStatsUpdate ps log =
        if 0 < totalOf (speakerCountsIter log) then
          some (speakerStatsOfCounts ps (speakerCountsIter log))
        else none) := by
  have hiter : ∀ (log : List TranscriptEntry),
      speakerCounts log = speakerCountsIter log := by
    intro log
    rw [speakerCountsIter, speakerCountsIterAux_eq, List.reverse_reverse]
    rfl
  refine ⟨hiter, ?_, ?_⟩
  · intro log e
    exact speakerCounts_snoc log e
  · intro ps log
    rw [speakerStatsUpdate, hiter]

/-- C6: with `max_attempts = 2` and validation failing on every attempt,
the runner returns a terminal failure reporting two attempts, uses exactly
the two prompts `ctx` and `ctx ++ [error of attempt 1]`, and the attempt-2
prompt contains the validation error text produced by attempt 1. -/
theorem runner_two_failing_attempts :
    ∀ (α : Type) (model : List String → String)
      (validate : String → Except String α)
      (errText : String → String) (ctx : List String),
      (∀ raw, validate raw = Except.error (errText raw)) →
      (runStructured model validate 2 ctx).1.isFailure = true
    ∧ (runStructured model validate 2 ctx).1.attemptsUsed = 2
    ∧ (runStructured model validate 2 ctx).2 =
        [ctx, ctx ++ [errText (model ctx)]]
    ∧ errText (model ctx) ∈ (runStructured model validate 2 ctx).2.getD 1 [] := by
  intro α model validate errText ctx h
  have hrun : runStructured model validate 2 ctx =
      (RunnerResult.failure (errText (model (ctx ++ [errText (model ctx)]))) 2,
       [ctx, ctx ++ [errText (model ctx)]]) := by
    show runnerGo model validate 2 1 ctx = _
    rw [show (2 : Nat) = 1 + 1 from rfl]
    rw [runnerGo]
    rw [h (model ctx)]
    simp only [reduceIte]
    rw [runnerGo]
    rw [h (model (ctx ++ [errText (model ctx)]))]
    simp
  rw [hrun]
  refine ⟨rfl, rfl, rfl, ?_⟩
  simp [List.getD]

/-- C6 witness: the statement at a concrete model and always-failing
validator. -/
theorem runner_two_failing_attempts_witness :
    ((runStructured (fun _ => "raw")
        (fun r => (Except.error ("invalid: " ++ r) : Except String Nat))
        2 ["task"]).1.isFailure = true)
  ∧ ((runStructured (fun _ => "raw")
        (fun r => (Except.error ("invalid: " ++ r) : Except String Nat))
        2 ["task"]).1.attemptsUsed = 2)
  ∧ ((runStructured (fun _ => "raw")
        (fun r => (Except.error ("invalid: " ++ r) : Except String Nat))
        2 ["task"]).2 = [["task"], ["task"] ++ ["invalid: " ++ "raw"]])
  ∧ ("invalid: " ++ "raw" ∈
      (runStructured (fun _ => "raw")
        (fun r => (Except.error ("invalid: " ++ r) : Except String Nat))
        2 ["task"]).2.getD 1 []) :=
  runner_two_failing_attempts Nat (fun _ => "raw")
    (fun r => (Except.error ("invalid: " ++ r) : Except String Nat))
    (fun r => "invalid: " ++ r) ["task"] (fun _ => rfl)

/-- C7: the claim states the status transitions to `in_progress` upon the
first ingested utterance and never leaves `completed` except via an
explicit reset.  Both parts are false on the code: ingesting an utterance
into the fresh store leaves the status `preparing`, and `startMeeting`
moves a `completed` meeting straight back to `in_progress`. -/
theorem lifecycle_counterexample :
    ((Action.addTranscript (sampleEntry 1)).apply initialState).status
      = Status.preparing
  ∧ (endMeeting (startMeeting "m1" initialState)).status = Status.completed
  ∧ (startMeeting "m1" (endMeeting (startMeeting "m1" initialState))).status
      = Status.in_progress := by
  decide

/-- C7 (amended): the status starts as `preparing`; the transition to
`in_progress` is caused by `startMeeting`, never by ingesting an utterance
(`addTranscript` preserves the status); and the only actions that move a
`completed` meeting out of `completed` are `reset` and `startMeeting`. -/
theorem lifecycle_transitions :
    initialState.status = Status.preparing
  ∧ (∀ (e : TranscriptEntry) (s : MeetingState),
      (addTranscript e s).status = s.status)
  ∧ (∀ (mid : String) (s : MeetingState),
      (startMeeting mid s).status = Status.in_progress)
  ∧ (∀ (a : Action) (s : MeetingState), s.status = Status.completed →
      (a.apply s).status ≠ Status.completed →
      a = Action.reset ∨ ∃ mid, a = Action.startMeeting mid) := by
  refine ⟨rfl, fun e s => rfl, fun mid s => rfl, ?_⟩
  intro a s hs hne
  cases a
  case reset => exact Or.inl rfl
  case startMeeting mid => exact Or.inr ⟨mid, rfl⟩
  case endMeeting => exact absurd rfl hne
  case updateTranscriptStream c =>
    exact absurd (((updateTranscriptStream_fields c s).2.1).trans hs) hne
  all_goals exact absurd hs hne

/-- C7 witness: the amended statement applied at `reset` from a concrete
completed state. -/
theorem lifecycle_transitions_witness :
    Action.reset = Action.reset ∨
      ∃ mid, Action.reset = Action.startMeeting mid :=
  lifecycle_transitions.2.2.2 Action.reset (endMeeting initialState) rfl
    (by decide)

/-- C8: the store never declares an `updateTranscript` method, so the
`transcript_update` branch's call raises a `TypeError` that the handler's
`try/catch` swallows: every `transcript_update` message carrying an id is
logged as a failure and leaves the store state completely unchanged. -/
theorem transcript_update_silently_dropped :
    (meetingStoreMethods.contains "updateTranscript") = false
  ∧ ∀ (i : String) (s : MeetingState),
      onMessage (WsMessage.transcriptUpdate (some i)) s = (s, true) := by
  refine ⟨by decide, fun i s => ?_⟩
  show (if "updateTranscript" ∈ meetingStoreMethods
        then (s, false) else (s, true)) = (s, true)
  rw [if_neg (by decide)]

/-- C9: an unclean close (code other than 1000) with reconnection enabled
schedules a reconnect after `min(500 * 2^(attempt-1), 8000)` ms with the
attempt counter capped at 6, so the delay never exceeds 8000 ms; a clean
1000 close schedules nothing, and after `disconnect` no sequence of close
events ever schedules a reconnect. -/
theorem reconnect_backoff_capped :
    (∀ n : Nat, backoffDelay n ≤ 8000)
  ∧ (∀ (s : WsConnState) (code : Nat),
      s.shouldReconnect = true → code ≠ 1000 →
      (onClose code s).reconnectAttempts = min (s.reconnectAttempts + 1) 6
    ∧ (onClose code s).reconnectTimer =
        some (backoffDelay (min (s.reconnectAttempts + 1) 6))
    ∧ (onClose code s).reconnectAttempts ≤ 6)
  ∧ (∀ (s : WsConnState), (onClose 1000 s).reconnectTimer = s.reconnectTimer)
  ∧ (∀ (s : WsConnState) (codes : List Nat),
      (processCloses codes (disconnect s)).reconnectTimer = none
    ∧ (processCloses codes (disconnect s)).shouldReconnect = false) := by
  refine ⟨fun n => Nat.min_le_right _ _, ?_, ?_, ?_⟩
  · intro s code h1 h2
    unfold onClose
    rw [if_neg (by simp [h1, h2])]
    exact ⟨rfl, rfl, Nat.min_le_right _ _⟩
  · intro s
    unfold onClose
    rw [if_pos (Or.inr rfl)]
  · intro s codes
    have inv : ∀ (t : WsConnState), t.shouldReconnect = false →
        t.reconnectTimer = none → ∀ (cs : List Nat),
        (processCloses cs t).reconnectTimer = none
      ∧ (processCloses cs t).shouldReconnect = false := by
      intro t ht htt cs
      induction cs generalizing t with
      | nil => exact ⟨htt, ht⟩
      | cons c cs ih =>
        have hstep : (onClose c t).shouldReconnect = false
            ∧ (onClose c t).reconnectTimer = none := by
          unfold onClose
          rw [if_pos (Or.inl ht)]
          exact ⟨ht, htt⟩
        exact ih (onClose c t) hstep.1 hstep.2
    exact inv (disconnect s) rfl rfl codes

/-- C9 witness: the statement at a concrete connection state, an unclean
close code, and a close sequence following `disconnect`. -/
theorem reconnect_backoff_capped_witness :
    backoffDelay 7 ≤ 8000
  ∧ (onClose 1006 wsSample).reconnectTimer =
      some (backoffDelay (min (wsSample.reconnectAttempts + 1) 6))
  ∧ (onClose 1000 wsSample).reconnectTimer = wsSample.reconnectTimer
  ∧ (processCloses [1006, 1001] (disconnect wsSample)).reconnectTimer = none :=
  ⟨reconnect_backoff_capped.1 7,
   (reconnect_backoff_capped.2.1 wsSample 1006 rfl (by decide)).2.1,
   reconnect_backoff_capped.2.2.1 wsSample,
   (reconnect_backoff_capped.2.2.2 wsSample [1006, 1001]).1⟩

/-- C10: calling `start()` on a running simulator is a no-op, and after
`stop()` — which clears every pending timeout while every callback
re-checks `isRunning` — no event sequence that does not restart the
simulator ever produces an `onTranscript` or `onIntervention` callback. -/
theorem simulator_start_noop_stop_silent :
    (∀ (s : SimState), s.isRunning = true → simStep s SimEvent.start = (s, []))
  ∧ (∀ (s : SimState) (evs : List SimEvent),
      (∀ e ∈ evs, e ≠ SimEvent.start) →
      (simRun (simStop s) evs).2 = []) := by
  constructor
  · intro s h
    simp [simStep, simStart, h]
  · intro s evs h
    exact sim_quiescent_run evs (simStop s) rfl rfl h

/-- C10 witness: the statement at the concrete demo simulator (a running
copy for the `start` no-op, and a stop followed by a promise resolution
and a timer firing for silence after `stop`). -/
theorem simulator_start_noop_stop_silent_witness :
    simStep { demoSim0 with isRunning := true } SimEvent.start
      = ({ demoSim0 with isRunning := true }, [])
  ∧ (simRun (simStop demoSim0)
      [SimEvent.promiseResolve demoPersonaScript, SimEvent.fire 0]).2 = [] :=
  ⟨simulator_start_noop_stop_silent.1 { demoSim0 with isRunning := true } rfl,
   simulator_start_noop_stop_silent.2 demoSim0
     [SimEvent.promiseResolve demoPersonaScript, SimEvent.fire 0] (by decide)⟩

end GradientHair
